import Mathlib

/-!
# Verification of the trading-bot-webhook relay (`src/app.py`)

A shallow embedding, in Lean, of the Flask webhook relay in `src/app.py`:

* `verify_webhook_signature` (app.py lines 29-35),
* `parse_tradingview_alert` (app.py lines 38-51),
* `place_order` (app.py lines 53-80),
* the `webhook` POST handler (app.py lines 87-124),

together with theorems settling the behavioural claims about them.

Modelling conventions:

* Python values that can appear in a decoded JSON payload are the inductive
  type `PyVal`; JSON/Python numbers are exact rationals (the payload numbers
  are only carried through, never computed with, so the rational model is
  faithful up to the usual float-literal idealization).
* External libraries are parameters of the embedded functions:
  `json.loads` is a parameter `loads : String → Option PyVal` (`Option.none`
  models a raised `json.JSONDecodeError`), HMAC-SHA256 hex digesting is a
  parameter `hmacHex : String → String → String` (secret and message to hex
  digest), and the Binance client is a parameter
  `exchange : ExchangeCall → Except String ExchResp` (`Except.error` models a
  raised exception whose `str` is the carried message).  `datetime.now()` is a
  parameter `now : String`.
* The outbound calls actually made to the exchange client are returned as an
  explicit trace (`List ExchangeCall`), making "the handler never reaches the
  exchange call" and "the handler submits exactly this order" provable.
* Python `str` methods are modelled on `String.data` (lists of characters):
  `pyUpper` for `str.upper`, `pyEndsWith` for `str.endswith`, and
  `removeBinance` for `str.replace('BINANCE:', '')` (which removes every
  non-overlapping occurrence, scanning left to right, exactly as
  `str.replace` does).  These agree with CPython on all inputs that occur in
  this development (non-ASCII case mapping differences are out of scope).
* The `webhook` handler's outermost `try/except` (500 on an unhandled
  exception) never fires in the model because every embedded step is total;
  each remaining `return jsonify(...)` site of the handler is one
  constructor of `WebhookResp`.
-/

namespace TradingBot

/-- A Python value as can result from `json.loads` or be stored in the parsed
alert dict: `None`, booleans, numbers (modelled as exact rationals), strings,
lists, and string-keyed dicts (association lists with distinct keys, as
produced by `json.loads`). -/
inductive PyVal where
  | none
  | bool (b : Bool)
  | num (q : ℚ)
  | str (s : String)
  | list (xs : List PyVal)
  | dict (kvs : List (String × PyVal))

/-- Python `dict.get(k, default)` on a string-keyed dict. -/
def dict_get (kvs : List (String × PyVal)) (k : String) (default : PyVal) : PyVal :=
  match kvs.lookup k with
  | some v => v
  | Option.none => default

/-- Python truthiness (`bool(v)`) of a `PyVal`, as used by
`elif order_type == 'LIMIT' and price:` (app.py line 62). -/
def pyTruthy : PyVal → Bool
  | .none => false
  | .bool b => b
  | .num q => q != 0
  | .str s => s != ""
  | .list xs => !xs.isEmpty
  | .dict kvs => !kvs.isEmpty

/-- Python `str.upper()` (ASCII case mapping). -/
def pyUpper (s : String) : String := String.mk (s.data.map Char.toUpper)

/-- Python `str.endswith(suffix)`: the final characters of `s` are exactly
`suffix`. -/
def pyEndsWith (s suffix : String) : Bool :=
  suffix.data == s.data.drop (s.data.length - suffix.data.length)

/-- The characters of the literal `'BINANCE:'` replaced by
`parse_tradingview_alert`. -/
def binPat : List Char := ['B', 'I', 'N', 'A', 'N', 'C', 'E', ':']

/-- Python `s.replace('BINANCE:', '')` (app.py line 42) on the character list
of `s`: scanning left to right, every non-overlapping occurrence of
`'BINANCE:'` is removed. -/
def removeBinance : List Char → List Char
  | [] => []
  | 'B' :: 'I' :: 'N' :: 'A' :: 'N' :: 'C' :: 'E' :: ':' :: rest => removeBinance rest
  | c :: cs => c :: removeBinance cs

/-- `pyReplaceBinance s` is Python `s.replace('BINANCE:', '')`. -/
def pyReplaceBinance (s : String) : String := String.mk (removeBinance s.data)

/-- `containsSub pat l` decides whether `pat` occurs as a contiguous
subsequence of `l` (Python `pat in s`). -/
def containsSub (pat : List Char) : List Char → Bool
  | [] => pat.isEmpty
  | c :: cs => pat.isPrefixOf (c :: cs) || containsSub pat cs

/-- Value of a list of decimal digit characters. -/
def digitsVal (cs : List Char) : Nat := cs.foldl (fun a c => a * 10 + (c.toNat - 48)) 0

/-- Model of Python `float(string)` restricted to finite decimal literals:
optional surrounding whitespace, an optional sign, a mantissa with at least
one digit (integer part, fractional part, or both), and an optional exponent.
CPython additionally accepts `inf`/`nan` spellings and digit-group
underscores; those have no finite rational value or do not occur here and are
modelled as failures. Returns `Option.none` where `float(...)` raises
`ValueError`. -/
def parseDecimal? (s : String) : Option ℚ :=
  let cs := s.data.dropWhile Char.isWhitespace
  let cs := (cs.reverse.dropWhile Char.isWhitespace).reverse
  let signAndRest : ℚ × List Char :=
    match cs with
    | '+' :: rest => (1, rest)
    | '-' :: rest => (-1, rest)
    | rest => (1, rest)
  let sign := signAndRest.1
  let cs := signAndRest.2
  let ipart := cs.takeWhile Char.isDigit
  let cs := cs.dropWhile Char.isDigit
  let fracAndRest : List Char × List Char :=
    match cs with
    | '.' :: rest => (rest.takeWhile Char.isDigit, rest.dropWhile Char.isDigit)
    | rest => ([], rest)
  let fpart := fracAndRest.1
  let cs := fracAndRest.2
  if ipart.isEmpty && fpart.isEmpty then Option.none
  else
    let mant : ℚ := sign * ((digitsVal ipart : ℚ) + (digitsVal fpart : ℚ) / (10 ^ fpart.length))
    match cs with
    | [] => some mant
    | e :: rest =>
      if e = 'e' ∨ e = 'E' then
        let esignAndRest : Int × List Char :=
          match rest with
          | '+' :: r => (1, r)
          | '-' :: r => (-1, r)
          | r => (1, r)
        let edigits := esignAndRest.2.takeWhile Char.isDigit
        let erest := esignAndRest.2.dropWhile Char.isDigit
        if edigits.isEmpty ∨ ¬ erest.isEmpty then Option.none
        else some (mant * (10 : ℚ) ^ (esignAndRest.1 * (digitsVal edigits : Int)))
      else Option.none

/-- Model of Python `float(v)` on a payload value (app.py line 45): numbers
and booleans coerce, strings coerce when they spell a decimal literal, and
`None`, lists and dicts raise `TypeError` (modelled as `Option.none`). -/
def pyFloat : PyVal → Option ℚ
  | .num q => some q
  | .bool b => some (if b then 1 else 0)
  | .str s => parseDecimal? s
  | _ => Option.none

/-- The parsed alert dict built by `parse_tradingview_alert`
(app.py lines 41-48): one field per key of the returned dict. `signal`,
`side` and `price` are stored exactly as supplied (any `PyVal`); `symbol` is
a string after `.replace`; `quantity` is the result of `float(...)`. -/
structure Alert where
  symbol : String
  signal : PyVal
  side : PyVal
  quantity : ℚ
  price : PyVal
  timestamp : String

/-- `verify_webhook_signature` (app.py lines 29-35): HMAC-SHA256 over the raw
body with the shared secret, hex encoded, compared with
`hmac.compare_digest` (timing-safe, but extensionally string equality) to the
supplied signature. `hmacHex` is the hex digest function. -/
def verify_webhook_signature (hmacHex : String → String → String)
    (secret request_data signature : String) : Bool :=
  hmacHex secret request_data == signature

/-- `parse_tradingview_alert` (app.py lines 38-51) applied to the raw body
string, as reached from the `webhook` handler (so the `isinstance(data, str)`
branch takes `json.loads`). `loads` is the `json.loads` model, `now` the
`datetime.now().isoformat()` timestamp. Any raised exception — a JSON decode
failure, `.get` on a decoded non-dict (`AttributeError`), `.replace` on a
non-string `symbol` (`AttributeError`), or an uncoercible `quantity`
(`float` raising) — is caught and yields `Option.none` (the Python `None`
sentinel). -/
def parse_tradingview_alert (loads : String → Option PyVal) (now : String)
    (data : String) : Option Alert :=
  match loads data with
  | Option.none => Option.none
  | some v =>
    match v with
    | .dict kvs =>
      match dict_get kvs "symbol" (.str "") with
      | .str s =>
        match pyFloat (dict_get kvs "quantity" (.num (1/1000))) with
        | some q =>
          some { symbol := pyReplaceBinance s
                 signal := dict_get kvs "signal" (.str "BUY")
                 side := dict_get kvs "side" (.str "BUY")
                 quantity := q
                 price := dict_get kvs "price" .none
                 timestamp := now }
        | Option.none => Option.none
      | _ => Option.none
    | _ => Option.none

/-- A call made on the Binance client by `place_order`: either
`client.order_market(symbol=..., side=..., quantity=...)` (app.py line 61) or
`client.order_limit(symbol=..., side=..., timeInForce=..., quantity=...,
price=...)` (app.py line 63). -/
inductive ExchangeCall where
  | market (symbol : String) (side : PyVal) (quantity : ℚ)
  | limit (symbol : String) (side : PyVal) (timeInForce : String) (quantity : ℚ)
      (price : PyVal)

/-- The exchange's response dict on a successful order (read with
`order.get('orderId')` and `order.get('status')`). -/
def ExchResp : Type := List (String × PyVal)

/-- The dict returned by `place_order` (app.py lines 67-74 on success, 77-80
on failure): the success dict carries order id, normalized symbol, side,
quantity and status and no error; the failure dict carries only the error
string. -/
inductive OrderResult where
  | ok (order_id : Option PyVal) (symbol : String) (side : PyVal) (quantity : ℚ)
      (status : Option PyVal)
  | err (error : String)

/-- `order_result['success']` (app.py line 109). -/
def OrderResult.success : OrderResult → Bool
  | .ok _ _ _ _ _ => true
  | .err _ => false

/-- `order_result.get('error')` (app.py line 119). -/
def OrderResult.get_error : OrderResult → Option String
  | .ok _ _ _ _ _ => Option.none
  | .err e => some e

/-- Symbol normalization in `place_order` (app.py lines 55-56): if the symbol
does not end with `'USDT'`, upper-case it and append `'USDT'`. -/
def normalize_symbol (symbol : String) : String :=
  if pyEndsWith symbol "USDT" then symbol else pyUpper symbol ++ "USDT"

/-- The client call chosen by `place_order` (app.py lines 55-65) for the
given arguments, or the message of the `ValueError` it raises at line 65 when
neither the market branch nor the limit branch applies. -/
def order_request (symbol : String) (side : PyVal) (quantity : ℚ)
    (order_type : String) (price : PyVal) : Except String ExchangeCall :=
  let sym := normalize_symbol symbol
  if order_type == "MARKET" then .ok (.market sym side quantity)
  else if order_type == "LIMIT" && pyTruthy price then
    .ok (.limit sym side "GTC" quantity price)
  else .error ("Invalid order type: " ++ order_type)

/-- `place_order` (app.py lines 53-80). The Python signature defaults
`order_type='MARKET'` and `price=None`; callers omitting them pass
`"MARKET"` and `PyVal.none` here. Every exception inside the `try` — the
`ValueError` of line 65 as well as anything raised by the client call — is
caught at line 75 and becomes the failure dict `{'success': False, 'error':
str(e)}`. The second component is the trace of client calls actually made. -/
def place_order (exchange : ExchangeCall → Except String ExchResp)
    (symbol : String) (side : PyVal) (quantity : ℚ) (order_type : String)
    (price : PyVal) : OrderResult × List ExchangeCall :=
  match order_request symbol side quantity order_type price with
  | .error e => (.err e, [])
  | .ok call =>
    match exchange call with
    | .error e => (.err e, [call])
    | .ok order =>
      (.ok (dict_get order "orderId" .none |> some)
         (normalize_symbol symbol) side quantity
         (dict_get order "status" .none |> some), [call])

/-- One constructor per `return jsonify(...)` site of the `webhook` handler
(app.py lines 109-120, 94, 98). -/
inductive WebhookResp where
  | success (order : OrderResult)
  | orderFailed (error : Option String)
  | invalidAlert
  | invalidSignature

/-- The HTTP status code attached to each `webhook` response site. -/
def statusCode : WebhookResp → Nat
  | .success _ => 200
  | .orderFailed _ => 400
  | .invalidAlert => 400
  | .invalidSignature => 401

/-- The `'status'` field of the response JSON body, when present. -/
def respStatusField : WebhookResp → Option String
  | .success _ => some "success"
  | .orderFailed _ => some "error"
  | .invalidAlert => Option.none
  | .invalidSignature => Option.none

/-- The `'error'` field of the response JSON body, when present. -/
def respErrorField : WebhookResp → Option String
  | .success _ => Option.none
  | .orderFailed e => e
  | .invalidAlert => some "Invalid alert data"
  | .invalidSignature => some "Invalid signature"

/-- The signature gate of the `webhook` handler (app.py lines 91-92):
`signature = request.headers.get('X-Tradingview-Signature', '')` followed by
`if signature and not verify_webhook_signature(raw_data, signature)`.
`sigHeader` is the header value, `Option.none` when the header is absent. -/
def sig_rejected (hmacHex : String → String → String) (secret raw_data : String)
    (sigHeader : Option String) : Bool :=
  let signature := sigHeader.getD ""
  signature != "" && !(verify_webhook_signature hmacHex secret raw_data signature)

/-- The `webhook` handler from the alert-parsing step on (app.py lines
96-120): parse; on the `None` sentinel return the 400 invalid-alert response;
otherwise place the order (the call at lines 102-107 passes no `order_type`,
so the Python default `'MARKET'` applies, and `price=alert_data.get('price')`)
and translate the result dict to the 200 or 400 response. -/
def webhook_after_verify (loads : String → Option PyVal)
    (exchange : ExchangeCall → Except String ExchResp) (now raw_data : String) :
    WebhookResp × List ExchangeCall :=
  match parse_tradingview_alert loads now raw_data with
  | Option.none => (.invalidAlert, [])
  | some alert =>
    let r := place_order exchange alert.symbol alert.side alert.quantity "MARKET"
      alert.price
    if r.1.success then (.success r.1, r.2)
    else (.orderFailed r.1.get_error, r.2)

/-- The `webhook` POST handler (app.py lines 87-124): the signature gate,
then `webhook_after_verify`. The result also carries the trace of exchange
client calls the request caused. -/
def webhook (hmacHex : String → String → String) (secret : String)
    (loads : String → Option PyVal) (exchange : ExchangeCall → Except String ExchResp)
    (now raw_data : String) (sigHeader : Option String) :
    WebhookResp × List ExchangeCall :=
  if sig_rejected hmacHex secret raw_data sigHeader then (.invalidSignature, [])
  else webhook_after_verify loads exchange now raw_data

/-! ## Helper lemmas -/

/-- A string extended with `'USDT'` ends with `'USDT'`. -/
theorem pyEndsWith_append (t : String) : pyEndsWith (t ++ "USDT") "USDT" = true := by
  simp [pyEndsWith, String.data_append]

/-- When the scanned list does not start with `'BINANCE:'`, the
replace-scan keeps the head character. -/
theorem removeBinance_cons_of_ne (c : Char) (cs : List Char)
    (h : binPat.isPrefixOf (c :: cs) = false) :
    removeBinance (c :: cs) = c :: removeBinance cs := by
  rw [removeBinance.eq_def]
  split
  · rename_i heq
    exact absurd heq (by simp)
  · rename_i rest heq
    rw [heq] at h
    simp [binPat, List.isPrefixOf] at h
  · rename_i c' cs' hmiss heq
    injection heq with h1 h2
    rw [h1, h2]

/-- A list not containing `'BINANCE:'` is unchanged by the replace-scan. -/
theorem removeBinance_of_not_contains (l : List Char)
    (h : containsSub binPat l = false) : removeBinance l = l := by
  induction l with
  | nil => rfl
  | cons c cs ih =>
    rw [containsSub] at h
    rw [Bool.or_eq_false_iff] at h
    rw [removeBinance_cons_of_ne c cs h.1, ih h.2]

/-- The part of the `webhook` handler after the signature gate never answers
401. -/
theorem after_verify_not_401 (loads : String → Option PyVal)
    (exchange : ExchangeCall → Except String ExchResp) (now raw_data : String) :
    statusCode (webhook_after_verify loads exchange now raw_data).1 ≠ 401 := by
  unfold webhook_after_verify
  cases hp : parse_tradingview_alert loads now raw_data with
  | none => simp [statusCode]
  | some alert =>
    simp only
    split
    · simp [statusCode]
    · simp [statusCode]

/-- Once an alert parses, the handler makes exactly one exchange-client call:
the market order for the normalized symbol with the alert's side and
quantity. -/
theorem webhook_trace_of_parse (hmacHex : String → String → String)
    (secret : String) (loads : String → Option PyVal)
    (exchange : ExchangeCall → Except String ExchResp) (now raw_data : String)
    (sigHeader : Option String) (alert : Alert)
    (hsig : sig_rejected hmacHex secret raw_data sigHeader = false)
    (hparse : parse_tradingview_alert loads now raw_data = some alert) :
    (webhook hmacHex secret loads exchange now raw_data sigHeader).2
      = [.market (normalize_symbol alert.symbol) alert.side alert.quantity] := by
  rw [webhook, hsig]
  simp only [Bool.false_eq_true, if_false]
  rw [webhook_after_verify, hparse]
  simp only [place_order, order_request]
  simp only [beq_self_eq_true, if_true]
  cases hx : exchange (.market (normalize_symbol alert.symbol) alert.side alert.quantity) with
  | error e => simp [OrderResult.success]
  | ok o => simp [OrderResult.success]

/-! ## Claim theorems -/

/-- C1: a POST /webhook request with no `X-Tradingview-Signature` header
skips signature verification entirely and is processed as if the signature
were valid — the handler proceeds to alert parsing (it behaves exactly as the
post-verification pipeline) and never answers 401, whatever the body, the
secret, the hash function, the JSON decoder or the exchange client. -/
theorem C1_missing_signature_header_skips_verification
    (hmacHex : String → String → String) (secret : String)
    (loads : String → Option PyVal) (exchange : ExchangeCall → Except String ExchResp)
    (now raw_data : String) :
    webhook hmacHex secret loads exchange now raw_data Option.none
      = webhook_after_verify loads exchange now raw_data
    ∧ statusCode (webhook hmacHex secret loads exchange now raw_data Option.none).1
        ≠ 401 := by
  have h : sig_rejected hmacHex secret raw_data Option.none = false := rfl
  constructor
  · rw [webhook, h]
    simp
  · rw [webhook, h]
    simp only [Bool.false_eq_true, if_false]
    exact after_verify_not_401 loads exchange now raw_data

/-- C10: a POST /webhook request whose `X-Tradingview-Signature` header is
the empty string is treated exactly like a request with no such header: for
every body, verification is skipped, the request proceeds to alert parsing,
and the response is never 401. -/
theorem C10_empty_signature_header_skips_verification
    (hmacHex : String → String → String) (secret : String)
    (loads : String → Option PyVal) (exchange : ExchangeCall → Except String ExchResp)
    (now raw_data : String) :
    webhook hmacHex secret loads exchange now raw_data (some "")
      = webhook hmacHex secret loads exchange now raw_data Option.none
    ∧ webhook hmacHex secret loads exchange now raw_data (some "")
      = webhook_after_verify loads exchange now raw_data
    ∧ statusCode (webhook hmacHex secret loads exchange now raw_data (some "")).1
        ≠ 401 := by
  have h : sig_rejected hmacHex secret raw_data (some "") = false := rfl
  have h2 : sig_rejected hmacHex secret raw_data Option.none = false := rfl
  refine ⟨?_, ?_, ?_⟩
  · rw [webhook, webhook, h, h2]
  · rw [webhook, h]
    simp
  · rw [webhook, h]
    simp only [Bool.false_eq_true, if_false]
    exact after_verify_not_401 loads exchange now raw_data

/-- C2: a POST /webhook request carrying a non-empty signature header whose
value differs from the hex HMAC-SHA256 of the raw body under the shared
secret is answered 401 with an error body, with no alert parsing and no
exchange call (the response is fixed independently of the JSON decoder and
the exchange client, and the call trace is empty). -/
theorem C2_bad_signature_rejected_before_parsing
    (hmacHex : String → String → String) (secret : String)
    (loads : String → Option PyVal) (exchange : ExchangeCall → Except String ExchResp)
    (now raw_data sig : String)
    (hne : sig ≠ "") (hbad : hmacHex secret raw_data ≠ sig) :
    webhook hmacHex secret loads exchange now raw_data (some sig)
      = (.invalidSignature, [])
    ∧ statusCode (webhook hmacHex secret loads exchange now raw_data (some sig)).1
        = 401
    ∧ respErrorField (webhook hmacHex secret loads exchange now raw_data (some sig)).1
        = some "Invalid signature" := by
  have h : sig_rejected hmacHex secret raw_data (some sig) = true := by
    simp [sig_rejected, verify_webhook_signature, hne, hbad]
  rw [webhook, h]
  exact ⟨rfl, rfl, rfl⟩

/-- Witness for C2 at a concrete request: hash function returning `"aa"`,
supplied signature `"bb"`. -/
theorem C2_bad_signature_rejected_before_parsing_witness :
    webhook (fun _ _ => "aa") "secret" (fun _ => Option.none)
        (fun _ => .error "down") "t" "body" (some "bb")
      = (.invalidSignature, [])
    ∧ statusCode (webhook (fun _ _ => "aa") "secret" (fun _ => Option.none)
        (fun _ => .error "down") "t" "body" (some "bb")).1 = 401
    ∧ respErrorField (webhook (fun _ _ => "aa") "secret" (fun _ => Option.none)
        (fun _ => .error "down") "t" "body" (some "bb")).1
        = some "Invalid signature" :=
  C2_bad_signature_rejected_before_parsing (fun _ _ => "aa") "secret"
    (fun _ => Option.none) (fun _ => .error "down") "t" "body" "bb"
    (by decide) (by decide)

/-- C9: the order submitter's symbol normalization (upper-case and append
`'USDT'` unless the symbol already ends with `'USDT'`) is idempotent. -/
theorem C9_normalize_symbol_idempotent (s : String) :
    normalize_symbol (normalize_symbol s) = normalize_symbol s := by
  cases h : pyEndsWith s "USDT" with
  | true =>
    have hs : normalize_symbol s = s := by rw [normalize_symbol, h]; rfl
    rw [hs]
    exact hs
  | false =>
    have hs : normalize_symbol s = pyUpper s ++ "USDT" := by
      rw [normalize_symbol, h]; rfl
    rw [hs, normalize_symbol, pyEndsWith_append]
    rfl

/-- C3: when the exchange client call raises during order placement,
`place_order` catches it and returns the failure dict (success `false`)
carrying the exception's string description — never propagating — and the
webhook endpoint answers 400 with `status = 'error'` and that error string,
which is non-empty whenever the description is. -/
theorem C3_exchange_exception_becomes_400
    (hmacHex : String → String → String) (secret : String)
    (loads : String → Option PyVal) (exchange : ExchangeCall → Except String ExchResp)
    (now raw_data : String) (sigHeader : Option String) (alert : Alert) (msg : String)
    (hsig : sig_rejected hmacHex secret raw_data sigHeader = false)
    (hparse : parse_tradingview_alert loads now raw_data = some alert)
    (hexc : exchange (.market (normalize_symbol alert.symbol) alert.side alert.quantity)
      = .error msg)
    (hmsg : msg ≠ "") :
    place_order exchange alert.symbol alert.side alert.quantity "MARKET" alert.price
      = (.err msg, [.market (normalize_symbol alert.symbol) alert.side alert.quantity])
    ∧ (place_order exchange alert.symbol alert.side alert.quantity "MARKET"
        alert.price).1.success = false
    ∧ webhook hmacHex secret loads exchange now raw_data sigHeader
      = (.orderFailed (some msg),
         [.market (normalize_symbol alert.symbol) alert.side alert.quantity])
    ∧ statusCode (webhook hmacHex secret loads exchange now raw_data sigHeader).1 = 400
    ∧ respStatusField (webhook hmacHex secret loads exchange now raw_data sigHeader).1
        = some "error"
    ∧ respErrorField (webhook hmacHex secret loads exchange now raw_data sigHeader).1
        = some msg
    ∧ respErrorField (webhook hmacHex secret loads exchange now raw_data sigHeader).1
        ≠ some "" := by
  have hpo : place_order exchange alert.symbol alert.side alert.quantity "MARKET"
      alert.price
      = (.err msg, [.market (normalize_symbol alert.symbol) alert.side alert.quantity]) := by
    unfold place_order order_request
    simp only [show (("MARKET" : String) == "MARKET") = true from rfl, if_true]
    rw [hexc]
  have hw : webhook hmacHex secret loads exchange now raw_data sigHeader
      = (.orderFailed (some msg),
         [.market (normalize_symbol alert.symbol) alert.side alert.quantity]) := by
    rw [webhook, hsig]
    simp only [Bool.false_eq_true, if_false]
    rw [webhook_after_verify, hparse]
    simp only [hpo, OrderResult.success, OrderResult.get_error]
    rfl
  refine ⟨hpo, by rw [hpo]; rfl, hw, by rw [hw]; rfl, by rw [hw]; rfl,
    by rw [hw]; rfl, ?_⟩
  rw [hw]
  simp [respErrorField, hmsg]

/-- Witness for C3 at a concrete request: an empty JSON object body (all
alert defaults) and an exchange client that raises with message `"boom"`. -/
theorem C3_exchange_exception_becomes_400_witness :
    webhook (fun _ _ => "aa") "secret" (fun _ => some (.dict []))
        (fun _ => .error "boom") "t" "{}" Option.none
      = (.orderFailed (some "boom"),
         [.market (normalize_symbol "") (.str "BUY") (1/1000)])
    ∧ statusCode (webhook (fun _ _ => "aa") "secret" (fun _ => some (.dict []))
        (fun _ => .error "boom") "t" "{}" Option.none).1 = 400
    ∧ respStatusField (webhook (fun _ _ => "aa") "secret" (fun _ => some (.dict []))
        (fun _ => .error "boom") "t" "{}" Option.none).1 = some "error" := by
  have h := C3_exchange_exception_becomes_400 (fun _ _ => "aa") "secret"
    (fun _ => some (.dict [])) (fun _ => .error "boom") "t" "{}" Option.none
    { symbol := "", signal := .str "BUY", side := .str "BUY", quantity := 1/1000,
      price := .none, timestamp := "t" } "boom"
    rfl rfl rfl (by decide)
  exact ⟨h.2.2.1, h.2.2.2.1, h.2.2.2.2.1⟩

/-- C4: a request body that does not decode as JSON, or whose decoded object
carries a `quantity` that `float(...)` cannot coerce, makes the alert parser
return the `None` sentinel without raising, and the webhook endpoint answers
400 (the invalid-alert error body) — never 500. -/
theorem C4_unparseable_body_yields_400
    (hmacHex : String → String → String) (secret : String)
    (loads : String → Option PyVal) (exchange : ExchangeCall → Except String ExchResp)
    (now raw_data : String) (sigHeader : Option String)
    (hsig : sig_rejected hmacHex secret raw_data sigHeader = false)
    (hbad : loads raw_data = Option.none ∨
      ∃ kvs, loads raw_data = some (.dict kvs) ∧
        pyFloat (dict_get kvs "quantity" (.num (1/1000))) = Option.none) :
    parse_tradingview_alert loads now raw_data = Option.none
    ∧ webhook hmacHex secret loads exchange now raw_data sigHeader = (.invalidAlert, [])
    ∧ statusCode (webhook hmacHex secret loads exchange now raw_data sigHeader).1 = 400
    ∧ respErrorField (webhook hmacHex secret loads exchange now raw_data sigHeader).1
        = some "Invalid alert data"
    ∧ statusCode (webhook hmacHex secret loads exchange now raw_data sigHeader).1
        ≠ 500 := by
  have hp : parse_tradingview_alert loads now raw_data = Option.none := by
    rcases hbad with h | ⟨kvs, hk, hq⟩
    · rw [parse_tradingview_alert, h]
    · rw [parse_tradingview_alert, hk]
      simp only
      cases hsym : dict_get kvs "symbol" (.str "") with
      | str s => rw [hq]
      | none => rfl
      | bool b => rfl
      | num q => rfl
      | list xs => rfl
      | dict d => rfl
  have hw : webhook hmacHex secret loads exchange now raw_data sigHeader
      = (.invalidAlert, []) := by
    rw [webhook, hsig]
    simp only [Bool.false_eq_true, if_false]
    rw [webhook_after_verify, hp]
  exact ⟨hp, hw, by rw [hw]; rfl, by rw [hw]; rfl, by rw [hw]; decide⟩

/-- Witness for C4 at a concrete request: a body on which the JSON decoder
raises. -/
theorem C4_unparseable_body_yields_400_witness :
    parse_tradingview_alert (fun _ => Option.none) "t" "not json" = Option.none
    ∧ webhook (fun _ _ => "aa") "secret" (fun _ => Option.none)
        (fun _ => .error "down") "t" "not json" Option.none = (.invalidAlert, [])
    ∧ statusCode (webhook (fun _ _ => "aa") "secret" (fun _ => Option.none)
        (fun _ => .error "down") "t" "not json" Option.none).1 = 400
    ∧ respErrorField (webhook (fun _ _ => "aa") "secret" (fun _ => Option.none)
        (fun _ => .error "down") "t" "not json" Option.none).1
        = some "Invalid alert data"
    ∧ statusCode (webhook (fun _ _ => "aa") "secret" (fun _ => Option.none)
        (fun _ => .error "down") "t" "not json" Option.none).1 ≠ 500 :=
  C4_unparseable_body_yields_400 (fun _ _ => "aa") "secret" (fun _ => Option.none)
    (fun _ => .error "down") "t" "not json" Option.none rfl (Or.inl rfl)

/-- C5: every successfully parsed alert leads to a market order: the handler
calls `place_order` with the Python default `order_type='MARKET'`, so the one
and only exchange-client call of the request is
`order_market(symbol, side, quantity)` — the alert's `price` never selects a
limit order and does not occur in the call. -/
theorem C5_always_market_order
    (hmacHex : String → String → String) (secret : String)
    (loads : String → Option PyVal) (exchange : ExchangeCall → Except String ExchResp)
    (now raw_data : String) (sigHeader : Option String) (alert : Alert)
    (hsig : sig_rejected hmacHex secret raw_data sigHeader = false)
    (hparse : parse_tradingview_alert loads now raw_data = some alert) :
    order_request alert.symbol alert.side alert.quantity "MARKET" alert.price
      = .ok (.market (normalize_symbol alert.symbol) alert.side alert.quantity)
    ∧ (webhook hmacHex secret loads exchange now raw_data sigHeader).2
      = [.market (normalize_symbol alert.symbol) alert.side alert.quantity] := by
  constructor
  · unfold order_request
    simp only [show (("MARKET" : String) == "MARKET") = true from rfl, if_true]
  · exact webhook_trace_of_parse hmacHex secret loads exchange now raw_data sigHeader
      alert hsig hparse

/-- Witness for C5 at a concrete request: body parsing to symbol `ETH` with
all other fields defaulted. -/
theorem C5_always_market_order_witness :
    order_request "ETH" (.str "BUY") (1/1000) "MARKET" PyVal.none
      = .ok (.market (normalize_symbol "ETH") (.str "BUY") (1/1000))
    ∧ (webhook (fun _ _ => "aa") "secret"
        (fun _ => some (.dict [("symbol", PyVal.str "ETH")]))
        (fun _ => .error "down") "t" "body" Option.none).2
      = [.market (normalize_symbol "ETH") (.str "BUY") (1/1000)] :=
  C5_always_market_order (fun _ _ => "aa") "secret"
    (fun _ => some (.dict [("symbol", PyVal.str "ETH")]))
    (fun _ => .error "down") "t" "body" Option.none
    { symbol := "ETH", signal := .str "BUY", side := .str "BUY", quantity := 1/1000,
      price := .none, timestamp := "t" }
    rfl rfl

/-- C6 counterexample: the claim "strips `'BINANCE:'` when present at the
start of the string and otherwise leaves the symbol unchanged" fails at the
symbol `"ABINANCE:BTC"`: `'BINANCE:'` is not at the start, yet the parser
changes the symbol to `"ABTC"` (because `str.replace` removes every
occurrence). -/
theorem C6_prefix_strip_counterexample :
    binPat.isPrefixOf "ABINANCE:BTC".data = false
    ∧ parse_tradingview_alert
        (fun _ => some (.dict [("symbol", PyVal.str "ABINANCE:BTC"),
          ("side", PyVal.str "SELL"), ("quantity", PyVal.num (1/2))])) "t" "body"
      = some { symbol := "ABTC", signal := .str "BUY", side := .str "SELL",
               quantity := 1/2, price := .none, timestamp := "t" }
    ∧ "ABTC" ≠ "ABINANCE:BTC" :=
  ⟨by decide, rfl, by decide⟩

/-- C6 amended: for every payload symbol string the parser removes every
non-overlapping occurrence of the substring `'BINANCE:'`, scanning left to
right (not only a leading prefix): a leading `'BINANCE:'` is stripped, a
symbol not containing `'BINANCE:'` anywhere is left unchanged, and the
payload `{"symbol":"BINANCE:ETHUSDT","side":"SELL","quantity":0.5}` parses to
symbol `'ETHUSDT'`. -/
theorem C6_symbol_replace_all :
    (∀ s : String, pyReplaceBinance ("BINANCE:" ++ s) = pyReplaceBinance s)
    ∧ (∀ s : String, containsSub binPat s.data = false → pyReplaceBinance s = s)
    ∧ parse_tradingview_alert
        (fun _ => some (.dict [("symbol", PyVal.str "BINANCE:ETHUSDT"),
          ("side", PyVal.str "SELL"), ("quantity", PyVal.num (1/2))])) "t" "body"
      = some { symbol := "ETHUSDT", signal := .str "BUY", side := .str "SELL",
               quantity := 1/2, price := .none, timestamp := "t" } := by
  refine ⟨fun s => rfl, ?_, rfl⟩
  intro s h
  calc pyReplaceBinance s = String.mk s.data :=
        congrArg String.mk (removeBinance_of_not_contains s.data h)
  _ = s := rfl

/-- Witness for the amended C6 at a concrete symbol without the substring. -/
theorem C6_symbol_replace_all_witness :
    containsSub binPat "ETHUSDT".data = false
    ∧ pyReplaceBinance "ETHUSDT" = "ETHUSDT" :=
  ⟨by decide, C6_symbol_replace_all.2.1 "ETHUSDT" (by decide)⟩

/-- C7: the order submitter upper-cases the symbol and appends `'USDT'` when
it does not already end with `'USDT'`, and leaves it unchanged otherwise; and
the alert `{"symbol":"BTC","side":"BUY","quantity":0.01}` makes the handler
request exactly one exchange order — a market order for `BTCUSDT`, side
`BUY`, quantity `0.01` — whatever the exchange client answers. -/
theorem C7_symbol_suffix_normalization :
    (∀ s : String, pyEndsWith s "USDT" = true → normalize_symbol s = s)
    ∧ (∀ s : String, pyEndsWith s "USDT" = false →
        normalize_symbol s = pyUpper s ++ "USDT")
    ∧ (∀ (hmacHex : String → String → String) (secret : String)
        (exchange : ExchangeCall → Except String ExchResp) (now : String),
        (webhook hmacHex secret
          (fun _ => some (.dict [("symbol", PyVal.str "BTC"),
            ("side", PyVal.str "BUY"), ("quantity", PyVal.num (1/100))]))
          exchange now "body" Option.none).2
        = [.market "BTCUSDT" (.str "BUY") (1/100)]) := by
  refine ⟨?_, ?_, ?_⟩
  · intro s h
    rw [normalize_symbol, h]
    rfl
  · intro s h
    rw [normalize_symbol, h]
    rfl
  · intro hmacHex secret exchange now
    have h := webhook_trace_of_parse hmacHex secret
      (fun _ => some (.dict [("symbol", PyVal.str "BTC"),
        ("side", PyVal.str "BUY"), ("quantity", PyVal.num (1/100))]))
      exchange now "body" Option.none
      { symbol := "BTC", signal := .str "BUY", side := .str "BUY",
        quantity := 1/100, price := .none, timestamp := now }
      rfl rfl
    rw [h]
    rfl

/-- Witness for C7 at concrete symbols on both sides of the suffix test. -/
theorem C7_symbol_suffix_normalization_witness :
    pyEndsWith "XUSDT" "USDT" = true ∧ normalize_symbol "XUSDT" = "XUSDT"
    ∧ pyEndsWith "btc" "USDT" = false
    ∧ normalize_symbol "btc" = pyUpper "btc" ++ "USDT" :=
  ⟨by decide, C7_symbol_suffix_normalization.1 "XUSDT" (by decide), by decide,
   C7_symbol_suffix_normalization.2.1 "btc" (by decide)⟩

/-- C8: a JSON-object payload missing the optional fields parses with the
defaults applied exactly: `signal = 'BUY'`, `side = 'BUY'`,
`quantity = 0.001` (the rational `1/1000`), price absent (`None`). -/
theorem C8_missing_fields_defaults
    (loads : String → Option PyVal) (now raw_data : String)
    (kvs : List (String × PyVal)) (s : String)
    (hload : loads raw_data = some (.dict kvs))
    (hsignal : kvs.lookup "signal" = Option.none)
    (hside : kvs.lookup "side" = Option.none)
    (hqty : kvs.lookup "quantity" = Option.none)
    (hprice : kvs.lookup "price" = Option.none)
    (hsym : dict_get kvs "symbol" (.str "") = .str s) :
    parse_tradingview_alert loads now raw_data
      = some { symbol := pyReplaceBinance s, signal := .str "BUY",
               side := .str "BUY", quantity := 1/1000, price := .none,
               timestamp := now } := by
  have h1 : dict_get kvs "signal" (.str "BUY") = .str "BUY" := by
    rw [dict_get, hsignal]
  have h2 : dict_get kvs "side" (.str "BUY") = .str "BUY" := by
    rw [dict_get, hside]
  have h3 : dict_get kvs "quantity" (.num (1/1000)) = .num (1/1000) := by
    rw [dict_get, hqty]
  have h4 : dict_get kvs "price" PyVal.none = PyVal.none := by
    rw [dict_get, hprice]
  rw [parse_tradingview_alert, hload]
  simp only [hsym, h1, h2, h3, h4, pyFloat]

/-- Witness for C8 at the concrete payload `{"symbol": "BTC"}`. -/
theorem C8_missing_fields_defaults_witness :
    parse_tradingview_alert (fun _ => some (.dict [("symbol", PyVal.str "BTC")]))
        "t" "body"
      = some { symbol := pyReplaceBinance "BTC", signal := .str "BUY",
               side := .str "BUY", quantity := 1/1000, price := .none,
               timestamp := "t" } :=
  C8_missing_fields_defaults (fun _ => some (.dict [("symbol", PyVal.str "BTC")]))
    "t" "body" [("symbol", PyVal.str "BTC")] "BTC" rfl rfl rfl rfl rfl rfl

end TradingBot
